import Mathlib

/-!
Verification of the plinto identity platform's specification against a shallow
embedding of its Python source.  Each section embeds one unit of the source:

* `validate_password_strength`  — apps/api/app/services/auth_service.py
* `retention` / `_calculate_retention` — apps/api/app/core/audit_logger.py
* `Invitation.is_valid`         — apps/api/app/models/invitation.py
* `Subscription.can_add_users`  — apps/api/app/models/subscription.py
* audit hash chain (`log_event`, `verify_integrity`, `_calculate_hash`,
  `_get_previous_hash`)          — apps/api/app/core/audit_logger.py
* `AuthService.create_audit_log` — apps/api/app/services/auth_service.py
* `refresh_tokens` / `revoke_token_family` — apps/api/app/services/auth_service.py
* `forgot_password` / `reset_password`     — apps/api/app/auth/router.py

Machine strings are Lean `String`; datetimes are integer timestamps; SHA-256 is
an explicit function parameter (the source calls `hashlib.sha256` on a
serialized record; only the serialized record's construction is the program's
own code).
-/

/-- The special character set of `AuthService.validate_password_strength`
(source literal: `"!@#$%^&*()_+-=[]{}|;:,.<>?"`). -/
def specialChars : List Char := "!@#$%^&*()_+-=[]\x7b\x7d|;:,.<>?".toList

/-- Embedding of `AuthService.validate_password_strength` (auth_service.py,
lines 37-55): returns `(is_valid, error_message)`, checking the rules in the
source's order. -/
def validate_password_strength (password : List Char) : Bool × Option String :=
  if password.length < 12 then
    (false, some "Password must be at least 12 characters long")
  else if ¬ password.any (fun c => c.isUpper) then
    (false, some "Password must contain at least one uppercase letter")
  else if ¬ password.any (fun c => c.isLower) then
    (false, some "Password must contain at least one lowercase letter")
  else if ¬ password.any (fun c => c.isDigit) then
    (false, some "Password must contain at least one number")
  else if ¬ password.any (fun c => specialChars.contains c) then
    (false, some "Password must contain at least one special character")
  else
    (true, none)

/-- Embedding of `AuditLogger._calculate_retention` (audit_logger.py, lines
369-386), reduced to the day count it adds to `utcnow` (the only computed
part).  `none` models Python `None`; a `some []` is falsy in Python just like
`None`, which the `match` reproduces. -/
def retention_days (compliance_tags : Option (List String)) : Nat :=
  match compliance_tags with
  | none => 730
  | some [] => 730
  | some tags =>
    if tags.contains "HIPAA" then 2190
    else if tags.contains "SOC2" then 2555
    else if tags.contains "GDPR" then 1095
    else if tags.contains "PCI-DSS" then 365
    else 730

/-- The retention rule table in the spec's priority order (HIPAA, SOC2, GDPR,
PCI-DSS). -/
def retentionRules : List (String × Nat) :=
  [("HIPAA", 2190), ("SOC2", 2555), ("GDPR", 1095), ("PCI-DSS", 365)]

/-- The first rule of `rules` whose tag occurs in `tags`, if any. -/
def findRule (tags : List String) : List (String × Nat) → Option Nat
  | [] => none
  | r :: rest => if tags.contains r.1 then some r.2 else findRule tags rest

/-- First-match-wins reading of the retention policy, written from the spec's
words ("taking the first matching rule in this priority order ... otherwise a
default of 730 days"), for comparison with `retention_days`. -/
def retention_days_spec (tags : List String) : Nat :=
  (findRule tags retentionRules).getD 730

/-- Embedding of the `Invitation` model's fields used by the validity check
(invitation.py): `status` string and `expires_at` timestamp. -/
structure Invitation where
  status : String
  expires_at : Int
deriving DecidableEq, Repr

/-- Embedding of `Invitation.is_expired` (invitation.py, lines 71-74):
`datetime.utcnow() > self.expires_at`, with `now` made explicit. -/
def Invitation.is_expired (inv : Invitation) (now : Int) : Bool :=
  now > inv.expires_at

/-- Embedding of `Invitation.is_valid` (invitation.py, lines 76-82): status is
`pending` and the invitation is not expired. -/
def Invitation.is_valid (inv : Invitation) (now : Int) : Bool :=
  inv.status == "pending" && !(inv.is_expired now)

/-- Subscription statuses (subscription.py `SubscriptionStatus`). -/
inductive SubStatus where
  | active | paused | canceled | expired | trialing | past_due
deriving DecidableEq, Repr

/-- Embedding of the `Subscription` model's fields used by `is_active` and
`can_add_users` (subscription.py): `status` and the nullable integer
`max_mau`. -/
structure Subscription where
  status : SubStatus
  max_mau : Option Int
deriving DecidableEq, Repr

/-- Python truthiness of a nullable integer: `None` and `0` are falsy. -/
def pyTruthyInt : Option Int → Bool
  | none => false
  | some n => n ≠ 0

/-- Embedding of `Subscription.is_active` (subscription.py, lines 82-84):
status is in `[ACTIVE, TRIALING]`. -/
def Subscription.is_active (s : Subscription) : Bool :=
  s.status = SubStatus.active ∨ s.status = SubStatus.trialing

/-- Embedding of `Subscription.can_add_users` (subscription.py, lines 90-94):
`if not self.max_mau: return True` then `return current_mau < self.max_mau`. -/
def Subscription.can_add_users (s : Subscription) (current_mau : Int) : Bool :=
  if ¬ pyTruthyInt s.max_mau then true
  else current_mau < s.max_mau.getD 0

/-- The hashed fields of an enterprise audit log entry: exactly the keys of
the sorted-key JSON document built in `AuditLogger._calculate_hash`
(audit_logger.py, lines 349-367).  `event_data`/`changes` stand for their
serialized JSON values; `timestamp` is the integer form of
`created_at.isoformat()`. -/
structure HashInput where
  organization_id : String
  user_id : Option String
  event_type : String
  event_name : String
  resource_type : Option String
  resource_id : Option String
  event_data : String
  changes : Option String
  ip_address : Option String
  previous_hash : Option String
  timestamp : Nat
deriving DecidableEq, Repr

/-- A stored enterprise `AuditLog` row (app/models/enterprise.py), restricted
to the columns the audit logger reads: the hashed fields plus `id`,
`current_hash` and `created_at`. -/
structure AuditLogRec where
  id : Nat
  organization_id : String
  user_id : Option String
  event_type : String
  event_name : String
  resource_type : Option String
  resource_id : Option String
  event_data : String
  changes : Option String
  ip_address : Option String
  previous_hash : Option String
  current_hash : String
  created_at : Nat
deriving DecidableEq, Repr

/-- The hash-input record of a row: every field of the `_calculate_hash` JSON
document, in particular NOT `current_hash` (assigned only afterwards in
`log_event`). -/
def hashInputOf (log : AuditLogRec) : HashInput :=
  ⟨log.organization_id, log.user_id, log.event_type, log.event_name,
   log.resource_type, log.resource_id, log.event_data, log.changes,
   log.ip_address, log.previous_hash, log.created_at⟩

/-- Embedding of `AuditLogger._calculate_hash`: SHA-256 of the serialized
hash-input record.  `sha256` is the hash function parameter (the source calls
`hashlib.sha256`). -/
def calculate_hash (sha256 : HashInput → String) (log : AuditLogRec) : String :=
  sha256 (hashInputOf log)

/-- One entry of the `broken_links` list built by
`AuditLogger.verify_integrity` (audit_logger.py, lines 162-188): either a
chain break (the dict appended at lines 168-174, which has no `type` key) or a
`"hash_mismatch"` entry (lines 179-186). -/
inductive BrokenLink where
  | chain_break (position : Nat) (expected_previous actual_previous : Option String)
  | hash_mismatch (position : Nat) (expected_hash actual_hash : String)
deriving DecidableEq, Repr

/-- The verification walk of `AuditLogger.verify_integrity` (lines 162-188):
`for i, log in enumerate(logs)`, carrying the previous entry's STORED
`current_hash`; a chain-break check for `i > 0`, then a recomputed-hash
check. -/
def verifyLoop (sha256 : HashInput → String) :
    Nat → Option String → List AuditLogRec → List BrokenLink
  | _, _, [] => []
  | i, prev, log :: rest =>
    (if 0 < i ∧ log.previous_hash ≠ prev then
      [BrokenLink.chain_break i prev log.previous_hash]
    else [])
    ++ (if calculate_hash sha256 log ≠ log.current_hash then
      [BrokenLink.hash_mismatch i (calculate_hash sha256 log) log.current_hash]
    else [])
    ++ verifyLoop sha256 (i + 1) (some log.current_hash) rest

/-- The result dict of `verify_integrity`, restricted to the fields the claim
is about. -/
structure VerifyResult where
  verified : Bool
  total_entries : Nat
  broken_links : List BrokenLink
deriving DecidableEq, Repr

/-- Embedding of `AuditLogger.verify_integrity` (audit_logger.py, lines
119-197) for one organization's logs given in `created_at` order (the source
queries them `ORDER BY created_at`): empty input verifies trivially, otherwise
`verified = (len(broken_links) == 0)`. -/
def verify_integrity (sha256 : HashInput → String) (logs : List AuditLogRec) :
    VerifyResult :=
  match logs with
  | [] => ⟨true, 0, []⟩
  | _ :: _ =>
    let broken := verifyLoop sha256 0 none logs
    ⟨broken.length == 0, logs.length, broken⟩

/-- `current_hash` of the organization's most recent entry (the source's
`ORDER BY created_at DESC LIMIT 1` over the creation-ordered list `logs`). -/
def lastCurrentHash (logs : List AuditLogRec) : Option String :=
  logs.getLast?.map (fun l => l.current_hash)

/-- Embedding of `AuditLogger._get_previous_hash` (audit_logger.py, lines
327-347): the in-process cache wins when present, otherwise the database's
most recent entry's hash (`None` when the organization has no entries). -/
def get_previous_hash (cache : Option String) (logs : List AuditLogRec) :
    Option String :=
  match cache with
  | some h => some h
  | none => lastCurrentHash logs

/-- The caller-supplied fields of a new enterprise audit event
(`AuditLogger.log_event` arguments). -/
structure NewEvent where
  organization_id : String
  user_id : Option String
  event_type : String
  event_name : String
  resource_type : Option String
  resource_id : Option String
  event_data : String
  changes : Option String
  ip_address : Option String
deriving DecidableEq, Repr

/-- Embedding of `AuditLogger.log_event` (audit_logger.py, lines 29-112):
fetch the previous hash, build the row with it, compute `current_hash` over
the row (which at that point has no `current_hash`), append, and update the
cache to the new hash.  Returns (new row, new log list, new cache). -/
def log_event (sha256 : HashInput → String) (logs : List AuditLogRec)
    (cache : Option String) (ev : NewEvent) (newId created_at : Nat) :
    AuditLogRec × List AuditLogRec × Option String :=
  let previous_hash := get_previous_hash cache logs
  let row : AuditLogRec :=
    ⟨newId, ev.organization_id, ev.user_id, ev.event_type, ev.event_name,
     ev.resource_type, ev.resource_id, ev.event_data, ev.changes,
     ev.ip_address, previous_hash, "", created_at⟩
  let row := { row with current_hash := calculate_hash sha256 row }
  (row, logs ++ [row], some row.current_hash)

/-- Python `f"{x}"` of an optional string: `None` prints as `"None"`. -/
def pyStrOpt : Option String → String
  | some s => s
  | none => "None"

/-- A row of the auth-service audit table (app/models/user.py `AuditLog`),
restricted to the columns `AuthService.create_audit_log` writes and hashes. -/
structure AuthAuditLog where
  user_id : Option String
  tenant_id : String
  event_type : String
  event_data : String
  previous_hash : String
  current_hash : String
  created_at : Nat
deriving DecidableEq, Repr

/-- Embedding of `AuthService.create_audit_log` (auth_service.py, lines
443-482) for one tenant's logs given in `created_at` order: the previous hash
is the most recent entry's `current_hash`, or the literal `"genesis"` when the
tenant has none; `current_hash` is SHA-256 of the concatenated f-string
`f"{user_id}{tenant_id}{event_type}{event_data}{created_at}{previous_hash}"`.
`sha256s` is the string hash function parameter. -/
def auth_create_audit_log (sha256s : String → String) (logs : List AuthAuditLog)
    (user_id : Option String) (tenant_id event_type event_data : String)
    (created_at : Nat) : AuthAuditLog :=
  let previous_hash :=
    match logs.getLast? with
    | some l => l.current_hash
    | none => "genesis"
  let hash_input := pyStrOpt user_id ++ tenant_id ++ event_type ++ event_data
    ++ toString created_at ++ previous_hash
  ⟨user_id, tenant_id, event_type, event_data, previous_hash,
   sha256s hash_input, created_at⟩

/-- A `Session` row (app/models/user.py), restricted to the columns
`refresh_tokens` / `revoke_token_family` / `logout` read and write. -/
structure Session where
  id : Nat
  user_id : String
  access_token_jti : String
  refresh_token_jti : String
  refresh_token_family : String
  is_active : Bool
  revoked_at : Option Nat
  revoked_reason : Option String
  expires_at : Nat
  last_activity_at : Option Nat
deriving DecidableEq, Repr

/-- The decoded claims of a refresh token whose signature, issuer, audience
and expiry already verify (`jwt.decode` succeeded).  `typ` is the `"type"`
claim; `exp` the expiry timestamp. -/
structure RefreshPayload where
  sub : String
  tid : String
  jti : String
  family : String
  typ : String
  exp : Nat
deriving DecidableEq, Repr

/-- The store state `refresh_tokens` acts on: the session table, the Redis
blacklist (`blacklist:{jti}` keys with their `ex=` TTL in seconds), and the
user table reduced to id ↦ `is_active`. -/
structure AuthState where
  sessions : List Session
  blacklist : List (String × Nat)
  users : List (String × Bool)
deriving DecidableEq, Repr

/-- Redis blacklist membership check of `AuthService.verify_token`
(auth_service.py, lines 308-313). -/
def blacklisted (st : AuthState) (jti : String) : Bool :=
  st.blacklist.any (fun e => e.1 == jti)

/-- Embedding of `AuthService.verify_token` (auth_service.py, lines 292-319)
on an already-decoded payload (decode success models signature/issuer/
audience/expiry verification): reject on type mismatch, then on a blacklisted
`jti`. -/
def verify_token (st : AuthState) (payload : RefreshPayload)
    (token_type : String) : Option RefreshPayload :=
  if payload.typ ≠ token_type then none
  else if blacklisted st payload.jti then none
  else some payload

/-- Embedding of `AuthService.revoke_token_family` (auth_service.py, lines
386-405): every session of the family is deactivated with reason
`family_revoked_security`, and each one's access and refresh `jti` is
blacklisted with `ex=86400`. -/
def revoke_token_family (st : AuthState) (family : String) (now : Nat) :
    AuthState :=
  let fam := st.sessions.filter (fun s => s.refresh_token_family == family)
  { st with
    sessions := st.sessions.map (fun s =>
      if s.refresh_token_family == family then
        { s with is_active := false, revoked_at := some now,
                 revoked_reason := some "family_revoked_security" }
      else s)
    blacklist := st.blacklist
      ++ fam.map (fun s => (s.access_token_jti, 86400))
      ++ fam.map (fun s => (s.refresh_token_jti, 86400)) }

/-- The configuration values `refresh_tokens` reads (app/config.py settings):
access-token lifetime in minutes and refresh-token lifetime in days. -/
structure Settings where
  access_minutes : Nat
  refresh_days : Nat
deriving DecidableEq, Repr

/-- Embedding of `AuthService.create_access_token` (auth_service.py, lines
175-205): the token is modeled by its `jti` (the generated `secrets` value is
the explicit argument `jti`); returns (token, jti, expires_at). -/
def create_access_token (cfg : Settings) (jti : String) (now : Nat) :
    String × String × Nat :=
  (jti, jti, now + cfg.access_minutes * 60)

/-- Embedding of `AuthService.create_refresh_token` (auth_service.py, lines
207-236): `family = family or secrets.token_urlsafe(32)` keeps a truthy
(non-empty) given family and generates a fresh one otherwise; returns
(token payload, jti, family, expires_at). -/
def create_refresh_token (cfg : Settings) (user_id tenant_id : String)
    (family : Option String) (jti freshFamily : String) (now : Nat) :
    RefreshPayload × String × String × Nat :=
  let fam :=
    match family with
    | some f => if f = "" then freshFamily else f
    | none => freshFamily
  let expires := now + cfg.refresh_days * 86400
  (⟨user_id, tenant_id, jti, fam, "refresh", expires⟩, jti, fam, expires)

/-- The session lookup of `refresh_tokens` (auth_service.py, lines 333-341):
the active session whose current `refresh_token_jti` equals the presented
`jti`. -/
def find_active_session (st : AuthState) (jti : String) : Option Session :=
  st.sessions.find? (fun s => s.refresh_token_jti == jti && s.is_active)

/-- The user check of `refresh_tokens` (auth_service.py, lines 350-353):
`db.get` then `user.is_active`; a missing user counts as inactive. -/
def user_is_active (st : AuthState) (uid : String) : Bool :=
  match st.users.find? (fun u => u.1 == uid) with
  | some u => u.2
  | none => false

/-- Embedding of `AuthService.refresh_tokens` (auth_service.py, lines
321-384).  The `secrets.token_urlsafe` draws are the explicit arguments
`freshAccessJti freshRefreshJti freshFamily`.  On the no-active-session branch
the whole family is revoked; on success the session row is updated in place,
the consumed `jti` is blacklisted with
`ex = int((refresh_expires - utcnow()).total_seconds())` where
`refresh_expires` is the NEW refresh token's expiry, and the new pair is
returned. -/
def refresh_tokens (cfg : Settings) (st : AuthState) (payload : RefreshPayload)
    (now : Nat) (freshAccessJti freshRefreshJti freshFamily : String) :
    Option (String × RefreshPayload) × AuthState :=
  match verify_token st payload "refresh" with
  | none => (none, st)
  | some payload =>
    match find_active_session st payload.jti with
    | none => (none, revoke_token_family st payload.family now)
    | some session =>
      if ¬ user_is_active st payload.sub then (none, st)
      else
        let (access_token, access_jti, _access_expires) :=
          create_access_token cfg freshAccessJti now
        let (refresh_tok, refresh_jti, _fam, refresh_expires) :=
          create_refresh_token cfg payload.sub payload.tid
            (some payload.family) freshRefreshJti freshFamily now
        let sessions' := st.sessions.map (fun s =>
          if s.id = session.id then
            { s with access_token_jti := access_jti,
                     refresh_token_jti := refresh_jti,
                     last_activity_at := some now,
                     expires_at := refresh_expires }
          else s)
        let blacklist' := st.blacklist ++ [(payload.jti, refresh_expires - now)]
        (some (access_token, refresh_tok),
         { st with sessions := sessions', blacklist := blacklist' })

/-- Embedding of the `forgot_password` endpoint (auth/router.py, lines
405-437).  `rate_allowed` is the rate limiter's verdict; `email_registered`
and `send_succeeds` describe the run's environment — the handler never
consults the user table and catches any send failure, so neither can reach the
response.  The result is the HTTP error (status, detail) or the success
message body. -/
def forgot_password (rate_allowed email_registered send_succeeds : Bool) :
    Except (Nat × String) String :=
  if ¬ rate_allowed then
    Except.error (429, "Too many password reset requests")
  else
    Except.ok "Password reset email sent if account exists"

/-- Embedding of the `reset_password` handler body (auth/router.py, lines
440-491): missing reset-token cache entry → 400; unknown user → 404; else the
new password is hashed (`bcrypt` parameter models `pwd_context.hash`) and
persisted.  Success carries the stored hash and the response message. -/
def reset_password (token_valid user_found : Bool) (new_password : List Char)
    (bcrypt : List Char → String) : Except (Nat × String) (String × String) :=
  if ¬ token_valid then
    Except.error (400, "Invalid or expired reset token")
  else if ¬ user_found then
    Except.error (404, "User not found")
  else
    Except.ok (bcrypt new_password, "Password reset successfully")

/-- The `reset_password` endpoint including request-shape validation:
`ResetPasswordRequest.new_password` carries `min_length=8` (auth/router.py,
lines 87-89), which the framework rejects with 422 before the handler runs.
No other password rule is applied on this path. -/
def reset_password_endpoint (token_valid user_found : Bool)
    (new_password : List Char) (bcrypt : List Char → String) :
    Except (Nat × String) (String × String) :=
  if new_password.length < 8 then
    Except.error (422, "validation error: new_password too short")
  else reset_password token_valid user_found new_password bcrypt

/-- Whether an entry's head other than the first must equal `prev` (helper
predicate for the verification walk). -/
def headPrevOk (prev : Option String) : List AuditLogRec → Bool
  | [] => true
  | a :: _ => a.previous_hash == prev

/-- Every stored `current_hash` in the list is the recomputed hash of its
row. -/
def hashesOk (sha256 : HashInput → String) (l : List AuditLogRec) : Bool :=
  l.all (fun e => e.current_hash == calculate_hash sha256 e)

/-- Consecutive entries are linked: each entry's `previous_hash` equals its
predecessor's `current_hash`. -/
def chainLinked : List AuditLogRec → Bool
  | [] => true
  | [_] => true
  | a :: b :: rest =>
    (b.previous_hash == some a.current_hash) && chainLinked (b :: rest)

/-- A concrete stand-in hash function for the counterexamples and witnesses:
injective on the (event_data, previous_hash) pairs occurring in them. -/
def shaTest (h : HashInput) : String :=
  "h(" ++ h.event_data ++ "," ++ pyStrOpt h.previous_hash ++ ")"

/-- Concrete audit row builder for the counterexample fixtures. -/
def mkRec (i : Nat) (data : String) (prev : Option String) (curr : String) :
    AuditLogRec :=
  ⟨i, "org1", none, "AUTH", "user.login", none, none, data, none, none,
   prev, curr, i⟩

/-- Fixture: a correctly hashed genesis entry with event data `"a"`. -/
def e0 : AuditLogRec := mkRec 0 "a" none "h(a,None)"

/-- Fixture: a correctly hashed and linked second entry with event data
`"b"`. -/
def e1 : AuditLogRec := mkRec 1 "b" (some "h(a,None)") "h(b,h(a,None))"

/-- Fixture: `e0` with its `event_data` mutated after the fact (stored hashes
untouched). -/
def t0 : AuditLogRec := { e0 with event_data := "x" }

/-- Concrete string hash stand-in for the auth-service audit chain. -/
def shaStrTest (s : String) : String := "H:" ++ s

/-- Concrete bcrypt stand-in for the reset-password witness. -/
def bcryptTest (pw : List Char) : String := "bc$" ++ String.mk pw

/-- Fixture: one active session holding refresh jti `"j0"` of family
`"fam1"`. -/
def sess0 : Session := ⟨1, "u1", "a0", "j0", "fam1", true, none, none, 1000000, none⟩

/-- Fixture: initial auth state with `sess0` and an active user `"u1"`. -/
def st0 : AuthState := ⟨[sess0], [], [("u1", true)]⟩

/-- Fixture: the refresh token currently held by `sess0`. -/
def tok0 : RefreshPayload := ⟨"u1", "t1", "j0", "fam1", "refresh", 604800⟩

/-- Fixture: the token-subsystem configuration (15-minute access tokens,
7-day refresh tokens). -/
def cfg0 : Settings := ⟨15, 7⟩
/-- Fixture: a new-event record for the audit-chain witnesses. -/
def ev0 : NewEvent :=
  ⟨"org1", none, "AUTH", "user.login", none, none, "b", none, none⟩

/-- Fixture: a first auth-service audit row as `create_audit_log` writes it
(previous hash `"genesis"`, hash over the concatenated fields). -/
def aa0 : AuthAuditLog :=
  ⟨none, "t1", "user_created", "d", "genesis",
   shaStrTest ("None" ++ "t1" ++ "user_created" ++ "d" ++ "0" ++ "genesis"), 0⟩

/-- Fixture: the first rotation — `tok0` presented at time 100 with fresh
jtis `"a1"`/`"j1"`. -/
def step1 : Option (String × RefreshPayload) × AuthState :=
  refresh_tokens cfg0 st0 tok0 100 "a1" "j1" "famX"

/-- Fixture: the state after the first rotation. -/
def st1 : AuthState := step1.2

/-- Fixture: the replay — the rotated-away `tok0` presented again at time
200. -/
def step2 : Option (String × RefreshPayload) × AuthState :=
  refresh_tokens cfg0 st1 tok0 200 "a2" "j2" "famY"

/-- Fixture: an active session whose refresh jti does not match `tokW`. -/
def sessW : Session := ⟨2, "u2", "aW", "jW", "famW", true, none, none, 500, none⟩

/-- Fixture: auth state for the family-revocation witness. -/
def stW : AuthState := ⟨[sessW], [], [("u2", true)]⟩

/-- Fixture: a non-blacklisted refresh token of `sessW`'s family whose jti
matches no active session. -/
def tokW : RefreshPayload := ⟨"u2", "t1", "jX", "famW", "refresh", 1000⟩

/-! ## Theorems -/

/-- The validity bit of `validate_password_strength`, characterized by the
five rules. -/
theorem vps_valid_iff (p : List Char) :
    (validate_password_strength p).1 = true ↔
      (12 ≤ p.length ∧ p.any (fun c => c.isUpper) = true ∧
        p.any (fun c => c.isLower) = true ∧ p.any (fun c => c.isDigit) = true ∧
        p.any (fun c => specialChars.contains c) = true) := by
  constructor
  · intro hv
    have h1 : ¬ p.length < 12 := by
      intro h
      simp only [validate_password_strength] at hv
      rw [if_pos h] at hv
      simp at hv
    have h2 : p.any (fun c => c.isUpper) = true := by
      by_contra h
      simp only [validate_password_strength] at hv
      rw [if_neg h1, if_pos h] at hv
      simp at hv
    have h3 : p.any (fun c => c.isLower) = true := by
      by_contra h
      simp only [validate_password_strength] at hv
      rw [if_neg h1, if_neg (not_not_intro h2), if_pos h] at hv
      simp at hv
    have h4 : p.any (fun c => c.isDigit) = true := by
      by_contra h
      simp only [validate_password_strength] at hv
      rw [if_neg h1, if_neg (not_not_intro h2), if_neg (not_not_intro h3),
        if_pos h] at hv
      simp at hv
    have h5 : p.any (fun c => specialChars.contains c) = true := by
      by_contra h
      simp only [validate_password_strength] at hv
      rw [if_neg h1, if_neg (not_not_intro h2), if_neg (not_not_intro h3),
        if_neg (not_not_intro h4), if_pos h] at hv
      simp at hv
    exact ⟨by omega, h2, h3, h4, h5⟩
  · rintro ⟨h1, h2, h3, h4, h5⟩
    simp only [validate_password_strength]
    rw [if_neg (by omega), if_neg (not_not_intro h2), if_neg (not_not_intro h3),
      if_neg (not_not_intro h4), if_neg (not_not_intro h5)]

/-- C3: `validate_password_strength` returns valid iff length ≥ 12 with at
least one uppercase, one lowercase, one digit, and one special character; a
violation yields the error message of the first unmet rule, checked in the
source's order, so the message identifies a specific unmet rule. -/
theorem C3_password_policy (p : List Char) :
    ((validate_password_strength p).1 = true ↔
      (12 ≤ p.length ∧ p.any (fun c => c.isUpper) = true ∧
        p.any (fun c => c.isLower) = true ∧ p.any (fun c => c.isDigit) = true ∧
        p.any (fun c => specialChars.contains c) = true)) ∧
    (p.length < 12 →
      (validate_password_strength p).2 =
        some "Password must be at least 12 characters long") ∧
    (12 ≤ p.length → ¬ p.any (fun c => c.isUpper) = true →
      (validate_password_strength p).2 =
        some "Password must contain at least one uppercase letter") ∧
    (12 ≤ p.length → p.any (fun c => c.isUpper) = true →
        ¬ p.any (fun c => c.isLower) = true →
      (validate_password_strength p).2 =
        some "Password must contain at least one lowercase letter") ∧
    (12 ≤ p.length → p.any (fun c => c.isUpper) = true →
        p.any (fun c => c.isLower) = true → ¬ p.any (fun c => c.isDigit) = true →
      (validate_password_strength p).2 =
        some "Password must contain at least one number") ∧
    (12 ≤ p.length → p.any (fun c => c.isUpper) = true →
        p.any (fun c => c.isLower) = true → p.any (fun c => c.isDigit) = true →
        ¬ p.any (fun c => specialChars.contains c) = true →
      (validate_password_strength p).2 =
        some "Password must contain at least one special character") ∧
    ((validate_password_strength p).1 = true →
      (validate_password_strength p).2 = none) := by
  refine ⟨vps_valid_iff p, ?_, ?_, ?_, ?_, ?_, ?_⟩
  · intro h1
    unfold validate_password_strength
    rw [if_pos h1]
  · intro h1 h2
    unfold validate_password_strength
    rw [if_neg (by omega), if_pos h2]
  · intro h1 h2 h3
    unfold validate_password_strength
    rw [if_neg (by omega), if_neg (not_not_intro h2), if_pos h3]
  · intro h1 h2 h3 h4
    unfold validate_password_strength
    rw [if_neg (by omega), if_neg (not_not_intro h2), if_neg (not_not_intro h3),
      if_pos h4]
  · intro h1 h2 h3 h4 h5
    unfold validate_password_strength
    rw [if_neg (by omega), if_neg (not_not_intro h2), if_neg (not_not_intro h3),
      if_neg (not_not_intro h4), if_pos h5]
  · intro hv
    obtain ⟨h1, h2, h3, h4, h5⟩ := (vps_valid_iff p).mp hv
    unfold validate_password_strength
    rw [if_neg (by omega), if_neg (not_not_intro h2), if_neg (not_not_intro h3),
      if_neg (not_not_intro h4), if_neg (not_not_intro h5)]

/-- Witness for C3 at the concrete password `"nouppercase12345"`: invalid, and
the message names the uppercase rule. -/
theorem C3_password_policy_witness :
    ((validate_password_strength "nouppercase12345".toList).1 = true ↔
      (12 ≤ "nouppercase12345".toList.length ∧
        "nouppercase12345".toList.any (fun c => c.isUpper) = true ∧
        "nouppercase12345".toList.any (fun c => c.isLower) = true ∧
        "nouppercase12345".toList.any (fun c => c.isDigit) = true ∧
        "nouppercase12345".toList.any (fun c => specialChars.contains c) = true)) ∧
    (validate_password_strength "nouppercase12345".toList).2 =
      some "Password must contain at least one uppercase letter" :=
  ⟨(C3_password_policy "nouppercase12345".toList).1,
   (C3_password_policy "nouppercase12345".toList).2.2.1
     (by decide) (by decide)⟩

/-- C4: the audit retention period is decided by the first matching rule in
the priority order HIPAA (2190), SOC2 (2555), GDPR (1095), PCI-DSS (365),
defaulting to 730 days when no rule matches (or when no tags are given); in
particular tags `["SOC2", "HIPAA"]` receive HIPAA's 2190 days, not SOC2's 2555
nor the maximum of the two. -/
theorem C4_retention_first_match :
    (∀ tags : List String, retention_days (some tags) = retention_days_spec tags) ∧
    retention_days none = 730 ∧
    retention_days (some ["SOC2", "HIPAA"]) = 2190 ∧
    retention_days (some ["SOC2", "HIPAA"]) ≠ 2555 ∧
    retention_days (some ["SOC2", "HIPAA"]) ≠ max 2190 2555 := by
  refine ⟨?_, rfl, by decide, by decide, by decide⟩
  intro tags
  cases tags with
  | nil => decide
  | cons a t =>
    show (if (a :: t).contains "HIPAA" then 2190
      else if (a :: t).contains "SOC2" then 2555
      else if (a :: t).contains "GDPR" then 1095
      else if (a :: t).contains "PCI-DSS" then 365
      else 730) = retention_days_spec (a :: t)
    by_cases h1 : ("HIPAA" = a ∨ "HIPAA" ∈ t)
    · simp [retention_days_spec, retentionRules, findRule, h1]
    · by_cases h2 : ("SOC2" = a ∨ "SOC2" ∈ t)
      · simp [retention_days_spec, retentionRules, findRule, h1, h2]
      · by_cases h3 : ("GDPR" = a ∨ "GDPR" ∈ t)
        · simp [retention_days_spec, retentionRules, findRule, h1, h2, h3]
        · by_cases h4 : ("PCI-DSS" = a ∨ "PCI-DSS" ∈ t)
          · simp [retention_days_spec, retentionRules, findRule, h1, h2, h3, h4]
          · simp [retention_days_spec, retentionRules, findRule, h1, h2, h3, h4]

/-- C5 counterexample: at `now` exactly equal to `expires_at`, a pending
invitation is still reported valid by the code, contradicting the claimed
equivalence with `now < expires_at`. -/
theorem C5_cex_boundary_valid :
    ¬ ((Invitation.mk "pending" 100).is_valid 100 = true ↔
        ((Invitation.mk "pending" 100).status = "pending" ∧
          (100 : Int) < (Invitation.mk "pending" 100).expires_at)) := by
  decide

/-- C5 (amended): an invitation is valid for acceptance iff its status is
`pending` and `now ≤ expires_at`; in particular at `now` exactly equal to
`expires_at` the invitation is still valid, because the code's expiry test is
the strict `now > expires_at`. -/
theorem C5_invitation_validity (inv : Invitation) (now : Int) :
    (inv.is_valid now = true ↔
      (inv.status = "pending" ∧ now ≤ inv.expires_at)) ∧
    ((Invitation.mk "pending" now).is_valid now = true) := by
  constructor
  · simp only [Invitation.is_valid, Invitation.is_expired, Bool.and_eq_true,
      beq_iff_eq, Bool.not_eq_true', decide_eq_false_iff_not, not_lt]
  · simp [Invitation.is_valid, Invitation.is_expired]

/-- C6: `can_add_users` admits any count when `max_mau` is `None` or `0`
(unlimited), otherwise admits iff strictly below the ceiling — exactly at the
ceiling is rejected; `is_active` holds iff the status is `active` or
`trialing`. -/
theorem C6_mau_admission (s : Subscription) (current_mau : Int)
    (hnn : 0 ≤ current_mau) :
    ((s.max_mau = none ∨ s.max_mau = some 0) →
      s.can_add_users current_mau = true) ∧
    (∀ m : Int, s.max_mau = some m → m ≠ 0 →
      (s.can_add_users current_mau = true ↔ current_mau < m)) ∧
    (∀ m : Int, s.max_mau = some m → m ≠ 0 → s.can_add_users m = false) ∧
    (s.is_active = true ↔
      (s.status = SubStatus.active ∨ s.status = SubStatus.trialing)) := by
  refine ⟨?_, ?_, ?_, ?_⟩
  · rintro (h | h) <;> simp [Subscription.can_add_users, pyTruthyInt, h]
  · intro m hm hm0
    simp [Subscription.can_add_users, pyTruthyInt, hm, hm0]
  · intro m hm hm0
    simp [Subscription.can_add_users, pyTruthyInt, hm, hm0]
  · simp [Subscription.is_active]

/-- Witness for C6: a subscription with ceiling 10 rejects at count 10 and
admits at count 9; an `active` subscription is active. -/
theorem C6_mau_admission_witness :
    (Subscription.mk SubStatus.active (some 10)).can_add_users 10 = false ∧
    ((Subscription.mk SubStatus.active (some 10)).can_add_users 9 = true ↔
      (9 : Int) < 10) ∧
    (Subscription.mk SubStatus.active (some 10)).is_active = true :=
  ⟨(C6_mau_admission (Subscription.mk SubStatus.active (some 10)) 10
      (by decide)).2.2.1 10 rfl (by decide),
   (C6_mau_admission (Subscription.mk SubStatus.active (some 10)) 9
      (by decide)).2.1 10 rfl (by decide),
   (C6_mau_admission (Subscription.mk SubStatus.active (some 10)) 9
      (by decide)).2.2.2.mpr (Or.inl rfl)⟩

/-- C8: when neither request is rate-limited, the forgot-password endpoint
returns the identical success body for a registered and an unregistered email
(and whatever the email send's outcome): the response does not depend on
whether the email is registered. -/
theorem C8_forgot_password_uniform
    (reg1 send1 reg2 send2 : Bool) :
    forgot_password true reg1 send1 = forgot_password true reg2 send2 ∧
    forgot_password true reg1 send1 =
      Except.ok "Password reset email sent if account exists" := by
  exact ⟨rfl, rfl⟩

/-- C10: with a valid reset token and an existing user, any new password of
length at least 8 passes the request-shape check and is hashed and persisted
by the reset-password path, with no strength validation; in particular the
8-lowercase-letter password `"abcdefgh"` is accepted there although
`validate_password_strength` rejects it (so the signup policy would refuse
it). -/
theorem C10_reset_password_weak_policy :
    (∀ (bcrypt : List Char → String) (pw : List Char), 8 ≤ pw.length →
      reset_password_endpoint true true pw bcrypt =
        Except.ok (bcrypt pw, "Password reset successfully")) ∧
    (∀ bcrypt : List Char → String,
      reset_password_endpoint true true "abcdefgh".toList bcrypt =
        Except.ok (bcrypt "abcdefgh".toList, "Password reset successfully")) ∧
    (validate_password_strength "abcdefgh".toList).1 = false := by
  refine ⟨?_, ?_, by decide⟩
  · intro bcrypt pw hlen
    simp only [reset_password_endpoint, reset_password]
    rw [if_neg (by omega)]
    rfl
  · intro bcrypt
    rfl

/-- Witness for C10 at the concrete hash function `bcryptTest` and the
concrete password `"abcdefgh"`. -/
theorem C10_reset_password_weak_policy_witness :
    reset_password_endpoint true true "abcdefgh".toList bcryptTest =
      Except.ok (bcryptTest "abcdefgh".toList, "Password reset successfully") :=
  C10_reset_password_weak_policy.1 bcryptTest "abcdefgh".toList (by decide)

/-- Head decomposition of `hashesOk`. -/
theorem hashesOk_cons {sha256 : HashInput → String} {a : AuditLogRec}
    {l : List AuditLogRec} (h : hashesOk sha256 (a :: l) = true) :
    a.current_hash = calculate_hash sha256 a ∧ hashesOk sha256 l = true := by
  simp only [hashesOk, List.all_cons, Bool.and_eq_true, beq_iff_eq] at h
  exact ⟨h.1, by simpa [hashesOk] using h.2⟩

/-- Head decomposition of `chainLinked`. -/
theorem chainLinked_cons {a : AuditLogRec} {l : List AuditLogRec}
    (h : chainLinked (a :: l) = true) :
    chainLinked l = true ∧ headPrevOk (some a.current_hash) l = true := by
  cases l with
  | nil => exact ⟨rfl, rfl⟩
  | cons b r =>
    simp only [chainLinked, Bool.and_eq_true] at h
    exact ⟨h.2, by simpa [headPrevOk] using h.1⟩

/-- An untampered, hash-correct, correctly linked list contributes no broken
links to the verification walk, whatever starting index and previous hash it
is entered with (the head's stored `previous_hash` matching `prev` when the
index is positive). -/
theorem verifyLoop_clean (sha256 : HashInput → String) :
    ∀ (l : List AuditLogRec) (i : Nat) (prev : Option String),
      hashesOk sha256 l = true → chainLinked l = true →
      (0 < i → headPrevOk prev l = true) →
      verifyLoop sha256 i prev l = [] := by
  intro l
  induction l with
  | nil =>
    intro i prev _ _ _
    rfl
  | cons a rest ih =>
    intro i prev hh hc hp
    obtain ⟨ha, hh'⟩ := hashesOk_cons hh
    obtain ⟨hc', hp'⟩ := chainLinked_cons hc
    have hno : ¬ (0 < i ∧ a.previous_hash ≠ prev) := by
      rintro ⟨hi, hne⟩
      have := hp hi
      simp only [headPrevOk, beq_iff_eq] at this
      exact hne this
    simp only [verifyLoop]
    rw [if_neg hno, if_neg (not_not_intro ha.symm)]
    simp only [List.nil_append]
    exact ih (i + 1) (some a.current_hash) hh' hc' (fun _ => hp')

/-- Mutating exactly one entry's `event_data` (stored hashes untouched) in a
hash-correct, correctly linked list makes the verification walk report exactly
one broken link: a hash mismatch at that entry's position.  In particular no
chain break is reported anywhere — the chain-break test compares only stored
hash fields, which the mutation does not change. -/
theorem verifyLoop_tampered (sha256 : HashInput → String) (eO : AuditLogRec)
    (d : String)
    (hd : calculate_hash sha256 { eO with event_data := d } ≠ eO.current_hash) :
    ∀ (pre post : List AuditLogRec) (i : Nat) (prev : Option String),
      hashesOk sha256 (pre ++ eO :: post) = true →
      chainLinked (pre ++ eO :: post) = true →
      (0 < i → headPrevOk prev (pre ++ eO :: post) = true) →
      verifyLoop sha256 i prev (pre ++ { eO with event_data := d } :: post) =
        [BrokenLink.hash_mismatch (i + pre.length)
          (calculate_hash sha256 { eO with event_data := d }) eO.current_hash] := by
  intro pre
  induction pre with
  | nil =>
    intro post i prev hh hc hp
    simp only [List.nil_append] at hh hc hp ⊢
    obtain ⟨_, hh'⟩ := hashesOk_cons hh
    obtain ⟨hc', hp'⟩ := chainLinked_cons hc
    have hno : ¬ (0 < i ∧
        ({ eO with event_data := d } : AuditLogRec).previous_hash ≠ prev) := by
      rintro ⟨hi, hne⟩
      have := hp hi
      simp only [headPrevOk, beq_iff_eq] at this
      exact hne this
    simp only [verifyLoop]
    rw [if_neg hno, if_pos hd]
    rw [verifyLoop_clean sha256 post (i + 1)
      (some ({ eO with event_data := d } : AuditLogRec).current_hash)
      hh' hc' (fun _ => hp')]
    simp
  | cons a pre' ih =>
    intro post i prev hh hc hp
    simp only [List.cons_append] at hh hc hp ⊢
    obtain ⟨ha, hh'⟩ := hashesOk_cons hh
    obtain ⟨hc', hp'⟩ := chainLinked_cons hc
    have hno : ¬ (0 < i ∧ a.previous_hash ≠ prev) := by
      rintro ⟨hi, hne⟩
      have := hp hi
      simp only [headPrevOk, beq_iff_eq] at this
      exact hne this
    simp only [verifyLoop]
    rw [if_neg hno, if_neg (not_not_intro ha.symm)]
    simp only [List.nil_append]
    rw [ih post (i + 1) (some a.current_hash) hh' hc' (fun _ => hp')]
    have hidx : i + (a :: pre').length = (i + 1) + pre'.length := by
      simp only [List.length_cons]
      omega
    rw [hidx]

/-- `verify_integrity` on a nonempty list is the walk's verdict. -/
theorem verify_integrity_ne_nil (sha256 : HashInput → String)
    (l : List AuditLogRec) (h : l ≠ []) :
    verify_integrity sha256 l =
      ⟨(verifyLoop sha256 0 none l).length == 0, l.length,
       verifyLoop sha256 0 none l⟩ := by
  cases l with
  | nil => exact absurd rfl h
  | cons a r => rfl

/-- C2 (amended): mutating a single entry's `event_data` after the fact (in a
well-formed chain, with the mutation actually changing the entry's hash)
causes `verify_integrity` to report exactly ONE broken link — a hash mismatch
at that entry's position — and NO chain break at any subsequent entry, because
the chain-break test compares stored hashes only; the overall result has
`verified = true` iff zero broken links are found. -/
theorem C2_audit_tamper_detection :
    (∀ (sha256 : HashInput → String) (pre post : List AuditLogRec)
        (eO : AuditLogRec) (d : String),
      hashesOk sha256 (pre ++ eO :: post) = true →
      chainLinked (pre ++ eO :: post) = true →
      calculate_hash sha256 { eO with event_data := d } ≠ eO.current_hash →
      (verify_integrity sha256
          (pre ++ { eO with event_data := d } :: post)).broken_links =
        [BrokenLink.hash_mismatch pre.length
          (calculate_hash sha256 { eO with event_data := d }) eO.current_hash] ∧
      (verify_integrity sha256
          (pre ++ { eO with event_data := d } :: post)).verified = false) ∧
    (∀ (sha256 : HashInput → String) (logs : List AuditLogRec),
      (verify_integrity sha256 logs).verified = true ↔
        (verify_integrity sha256 logs).broken_links = []) := by
  constructor
  · intro sha256 pre post eO d hh hc hd
    have hloop := verifyLoop_tampered sha256 eO d hd pre post 0 none hh hc
      (fun h => absurd h (by omega))
    simp only [Nat.zero_add] at hloop
    rw [verify_integrity_ne_nil sha256 _ (by simp)]
    refine ⟨hloop, ?_⟩
    rw [hloop]
    rfl
  · intro sha256 logs
    cases logs with
    | nil => simp [verify_integrity]
    | cons a r =>
      simp only [verify_integrity]
      constructor
      · intro h
        simp only [beq_iff_eq, List.length_eq_zero] at h
        exact h
      · intro h
        simp [h]

/-- Witness for C2 (amended): the concrete two-entry chain `[e0, e1]` with
`e0`'s event data mutated to `"x"` yields exactly the hash mismatch at
position 0 and is not verified. -/
theorem C2_audit_tamper_detection_witness :
    (verify_integrity shaTest
        ([] ++ { e0 with event_data := "x" } :: [e1])).broken_links =
      [BrokenLink.hash_mismatch (List.length ([] : List AuditLogRec))
        (calculate_hash shaTest { e0 with event_data := "x" }) e0.current_hash] ∧
    (verify_integrity shaTest
        ([] ++ { e0 with event_data := "x" } :: [e1])).verified = false :=
  C2_audit_tamper_detection.1 shaTest [] [e1] e0 "x"
    (by decide) (by decide) (by decide)

/-- C2 counterexample: in the two-entry chain with the first entry's
`event_data` mutated, the broken-links list is exactly the one hash mismatch
at position 0 — the claimed chain break at the subsequent entry (position 1)
is NOT reported. -/
theorem C2_cex_no_chain_break_reported :
    (verify_integrity shaTest [t0, e1]).broken_links =
      [BrokenLink.hash_mismatch 0 "h(x,None)" "h(a,None)"] ∧
    ¬ (∃ ep ap, BrokenLink.chain_break 1 ep ap ∈
        (verify_integrity shaTest [t0, e1]).broken_links) := by
  have h : (verify_integrity shaTest [t0, e1]).broken_links =
      [BrokenLink.hash_mismatch 0 "h(x,None)" "h(a,None)"] := by decide
  refine ⟨h, ?_⟩
  rintro ⟨ep, ap, hm⟩
  rw [h] at hm
  simp at hm

/-- C9 counterexample: the very first audit entry a tenant receives through
`AuthService.create_audit_log` carries the literal placeholder `"genesis"` as
its `previous_hash` — not an absent/empty value. -/
theorem C9_cex_genesis_placeholder :
    (auth_create_audit_log shaStrTest [] none "t1" "user_created" "d"
      0).previous_hash = "genesis" ∧ "genesis" ≠ "" :=
  ⟨rfl, by decide⟩

/-- C9 (amended): the first entry's `previous_hash` is absent (`None`) in the
`AuditLogger.log_event` path but the literal `"genesis"` in the
`AuthService.create_audit_log` path; in both paths every subsequent entry's
`previous_hash` equals the `current_hash` of the immediately preceding entry
in creation order (for `log_event`, provided the in-process cache is empty or
coherent with the store). -/
theorem C9_previous_hash_convention :
    (∀ (sha256 : HashInput → String) (ev : NewEvent) (newId t : Nat),
      (log_event sha256 [] none ev newId t).1.previous_hash = none) ∧
    (∀ (sha256 : HashInput → String) (logs : List AuditLogRec)
        (cache : Option String) (ev : NewEvent) (newId t : Nat)
        (l : AuditLogRec),
      logs.getLast? = some l →
      (cache = none ∨ cache = some l.current_hash) →
      (log_event sha256 logs cache ev newId t).1.previous_hash =
        some l.current_hash) ∧
    (∀ (sha256s : String → String) (uid : Option String) (tid et ed : String)
        (t : Nat),
      (auth_create_audit_log sha256s [] uid tid et ed t).previous_hash =
        "genesis") ∧
    (∀ (sha256s : String → String) (logs : List AuthAuditLog)
        (uid : Option String) (tid et ed : String) (t : Nat)
        (l : AuthAuditLog),
      logs.getLast? = some l →
      (auth_create_audit_log sha256s logs uid tid et ed t).previous_hash =
        l.current_hash) := by
  refine ⟨?_, ?_, ?_, ?_⟩
  · intro sha256 ev newId t
    rfl
  · intro sha256 logs cache ev newId t l hlast hcache
    rcases hcache with h | h <;>
      simp [log_event, get_previous_hash, lastCurrentHash, h, hlast]
  · intro sha256s uid tid et ed t
    rfl
  · intro sha256s logs uid tid et ed t l hlast
    simp [auth_create_audit_log, hlast]

/-- Witness for C9 (amended): concrete second entries in both paths link to
the concrete first entries' hashes. -/
theorem C9_previous_hash_convention_witness :
    (log_event shaTest [e0] none ev0 1 1).1.previous_hash =
      some e0.current_hash ∧
    (auth_create_audit_log shaStrTest [aa0] none "t1" "login" "d"
      1).previous_hash = aa0.current_hash :=
  ⟨C9_previous_hash_convention.2.1 shaTest [e0] none ev0 1 1 e0 rfl (Or.inl rfl),
   C9_previous_hash_convention.2.2.2 shaStrTest [aa0] none "t1" "login" "d" 1
     aa0 rfl⟩

/-- Reduction of `refresh_tokens` on a verifying, non-blacklisted token with
no matching active session: rejection plus family revocation. -/
theorem refresh_tokens_no_session
    (cfg : Settings) (st : AuthState) (payload : RefreshPayload) (now : Nat)
    (fa fr ff : String)
    (htype : payload.typ = "refresh")
    (hbl : blacklisted st payload.jti = false)
    (hnos : find_active_session st payload.jti = none) :
    refresh_tokens cfg st payload now fa fr ff =
      (none, revoke_token_family st payload.family now) := by
  have hv : verify_token st payload "refresh" = some payload := by
    simp [verify_token, htype, hbl]
  simp only [refresh_tokens, hv, hnos]

/-- After `revoke_token_family`, every session of the family is inactive with
reason `family_revoked_security`, and both its jtis are blacklisted with TTL
86400. -/
theorem revoke_token_family_spec
    (st : AuthState) (family : String) (now : Nat) :
    ∀ s ∈ (revoke_token_family st family now).sessions,
      s.refresh_token_family = family →
        s.is_active = false ∧
        s.revoked_reason = some "family_revoked_security" ∧
        (s.access_token_jti, 86400) ∈ (revoke_token_family st family now).blacklist ∧
        (s.refresh_token_jti, 86400) ∈ (revoke_token_family st family now).blacklist := by
  intro s hs hfam
  simp only [revoke_token_family, List.mem_map] at hs
  obtain ⟨x, hx, hfx⟩ := hs
  by_cases hxf : x.refresh_token_family == family
  · rw [if_pos hxf] at hfx
    subst hfx
    refine ⟨rfl, rfl, ?_, ?_⟩
    · simp only [revoke_token_family, List.mem_append]
      left
      right
      exact List.mem_map_of_mem _ (List.mem_filter.mpr ⟨hx, hxf⟩)
    · simp only [revoke_token_family, List.mem_append]
      right
      exact List.mem_map_of_mem _ (List.mem_filter.mpr ⟨hx, hxf⟩)
  · rw [if_neg hxf] at hfx
    subst hfx
    exact absurd (by simp [hfam]) hxf

/-- C1 (amended): a refresh token whose signature and type verify AND whose
jti is not blacklisted, but which matches no active session's current refresh
jti, is rejected with no tokens issued, and every session sharing its rotation
family is deactivated with reason `family_revoked_security` and has both its
access and refresh jtis blacklisted (TTL 86400 s).  (When the jti IS
blacklisted — the normal state of a rotated-away token — the refresh is
rejected earlier, without family revocation: see the counterexample.) -/
theorem C1_replay_revokes_family
    (cfg : Settings) (st : AuthState) (payload : RefreshPayload) (now : Nat)
    (fa fr ff : String)
    (htype : payload.typ = "refresh")
    (hbl : blacklisted st payload.jti = false)
    (hnos : find_active_session st payload.jti = none) :
    (refresh_tokens cfg st payload now fa fr ff).1 = none ∧
    (∀ s ∈ (refresh_tokens cfg st payload now fa fr ff).2.sessions,
      s.refresh_token_family = payload.family →
        s.is_active = false ∧
        s.revoked_reason = some "family_revoked_security" ∧
        (s.access_token_jti, 86400) ∈
          (refresh_tokens cfg st payload now fa fr ff).2.blacklist ∧
        (s.refresh_token_jti, 86400) ∈
          (refresh_tokens cfg st payload now fa fr ff).2.blacklist) := by
  rw [refresh_tokens_no_session cfg st payload now fa fr ff htype hbl hnos]
  exact ⟨rfl, revoke_token_family_spec st payload.family now⟩

/-- Witness for C1 (amended): `tokW` (type `refresh`, not blacklisted, no
matching active session) is rejected and `sessW` — the family's session — is
revoked with both jtis blacklisted. -/
theorem C1_replay_revokes_family_witness :
    (refresh_tokens cfg0 stW tokW 5 "na" "nr" "nf").1 = none ∧
    (∀ s ∈ (refresh_tokens cfg0 stW tokW 5 "na" "nr" "nf").2.sessions,
      s.refresh_token_family = tokW.family →
        s.is_active = false ∧
        s.revoked_reason = some "family_revoked_security" ∧
        (s.access_token_jti, 86400) ∈
          (refresh_tokens cfg0 stW tokW 5 "na" "nr" "nf").2.blacklist ∧
        (s.refresh_token_jti, 86400) ∈
          (refresh_tokens cfg0 stW tokW 5 "na" "nr" "nf").2.blacklist) :=
  C1_replay_revokes_family cfg0 stW tokW 5 "na" "nr" "nf"
    rfl (by decide) (by decide)

/-- C1 counterexample: after one successful rotation (`step1`), presenting the
rotated-away `tok0` again — its signature and type verify and no active
session's refresh jti matches — is rejected, but the family's session remains
ACTIVE: the code hits the blacklist check inside `verify_token` and returns
before the family-revocation branch. -/
theorem C1_cex_blacklisted_replay_not_revoked :
    tok0.typ = "refresh" ∧
    (∀ s ∈ st1.sessions, ¬ (s.refresh_token_jti = tok0.jti ∧ s.is_active = true)) ∧
    step2.1 = none ∧
    (∃ s ∈ step2.2.sessions,
      s.refresh_token_family = tok0.family ∧ s.is_active = true) := by
  decide

/-- Reduction of `refresh_tokens` on the successful rotation path. -/
theorem refresh_tokens_success_eq
    (cfg : Settings) (st : AuthState) (payload : RefreshPayload) (now : Nat)
    (fa fr ff : String) (sess : Session)
    (htype : payload.typ = "refresh")
    (hbl : blacklisted st payload.jti = false)
    (hsess : find_active_session st payload.jti = some sess)
    (huser : user_is_active st payload.sub = true)
    (hfam : payload.family ≠ "") :
    refresh_tokens cfg st payload now fa fr ff =
      (some (fa, ⟨payload.sub, payload.tid, fr, payload.family, "refresh",
          now + cfg.refresh_days * 86400⟩),
       { st with
         sessions := st.sessions.map (fun s =>
           if s.id = sess.id then
             { s with access_token_jti := fa,
                      refresh_token_jti := fr,
                      last_activity_at := some now,
                      expires_at := now + cfg.refresh_days * 86400 }
           else s)
         blacklist := st.blacklist
           ++ [(payload.jti, (now + cfg.refresh_days * 86400) - now)] }) := by
  have hv : verify_token st payload "refresh" = some payload := by
    simp [verify_token, htype, hbl]
  simp only [refresh_tokens, hv, hsess]
  rw [if_neg (not_not_intro huser)]
  simp only [create_access_token, create_refresh_token]
  rw [if_neg hfam]

/-- C7 (amended): on a successful refresh rotation, the new refresh token
carries the presented token's rotation family; the session's stored access and
refresh jtis, expiry and last activity are updated; and the just-consumed
refresh jti is blacklisted with a TTL equal to the NEW refresh token's full
lifetime (`refresh_days × 86400` seconds) — not the consumed token's remaining
lifetime. -/
theorem C7_rotation_updates
    (cfg : Settings) (st : AuthState) (payload : RefreshPayload) (now : Nat)
    (fa fr ff : String) (sess : Session)
    (htype : payload.typ = "refresh")
    (hbl : blacklisted st payload.jti = false)
    (hsess : find_active_session st payload.jti = some sess)
    (huser : user_is_active st payload.sub = true)
    (hfam : payload.family ≠ "") :
    (refresh_tokens cfg st payload now fa fr ff).1 =
      some (fa, ⟨payload.sub, payload.tid, fr, payload.family, "refresh",
        now + cfg.refresh_days * 86400⟩) ∧
    (∀ s ∈ (refresh_tokens cfg st payload now fa fr ff).2.sessions,
      s.id = sess.id →
        s.access_token_jti = fa ∧ s.refresh_token_jti = fr ∧
        s.expires_at = now + cfg.refresh_days * 86400 ∧
        s.last_activity_at = some now) ∧
    (∃ s ∈ (refresh_tokens cfg st payload now fa fr ff).2.sessions,
      s.id = sess.id) ∧
    (payload.jti, (now + cfg.refresh_days * 86400) - now) ∈
      (refresh_tokens cfg st payload now fa fr ff).2.blacklist ∧
    (now + cfg.refresh_days * 86400) - now = cfg.refresh_days * 86400 := by
  rw [refresh_tokens_success_eq cfg st payload now fa fr ff sess
    htype hbl hsess huser hfam]
  refine ⟨rfl, ?_, ?_, ?_, by omega⟩
  · intro s hs hid
    simp only [List.mem_map] at hs
    obtain ⟨x, hx, hfx⟩ := hs
    by_cases hxid : x.id = sess.id
    · rw [if_pos hxid] at hfx
      subst hfx
      exact ⟨rfl, rfl, rfl, rfl⟩
    · rw [if_neg hxid] at hfx
      subst hfx
      exact absurd hid hxid
  · have hmem : sess ∈ st.sessions := List.mem_of_find?_eq_some hsess
    refine ⟨_, List.mem_map_of_mem _ hmem, ?_⟩
    simp
  · simp

/-- Witness for C7 (amended): `tok0` rotated at time 100 on `st0` — same
family `"fam1"`, session updated, consumed jti `"j0"` blacklisted for the full
7-day lifetime. -/
theorem C7_rotation_updates_witness :
    (refresh_tokens cfg0 st0 tok0 100 "a1" "j1" "famX").1 =
      some ("a1", ⟨tok0.sub, tok0.tid, "j1", tok0.family, "refresh",
        100 + cfg0.refresh_days * 86400⟩) ∧
    (∀ s ∈ (refresh_tokens cfg0 st0 tok0 100 "a1" "j1" "famX").2.sessions,
      s.id = sess0.id →
        s.access_token_jti = "a1" ∧ s.refresh_token_jti = "j1" ∧
        s.expires_at = 100 + cfg0.refresh_days * 86400 ∧
        s.last_activity_at = some 100) ∧
    (∃ s ∈ (refresh_tokens cfg0 st0 tok0 100 "a1" "j1" "famX").2.sessions,
      s.id = sess0.id) ∧
    (tok0.jti, (100 + cfg0.refresh_days * 86400) - 100) ∈
      (refresh_tokens cfg0 st0 tok0 100 "a1" "j1" "famX").2.blacklist ∧
    (100 + cfg0.refresh_days * 86400) - 100 = cfg0.refresh_days * 86400 :=
  C7_rotation_updates cfg0 st0 tok0 100 "a1" "j1" "famX" sess0
    rfl (by decide) rfl rfl (by decide)

/-- C7 counterexample: the rotation at time 100 succeeds and blacklists the
consumed jti `"j0"` with TTL 604800 s (the new token's full 7-day lifetime),
while the consumed token's remaining lifetime at that moment is only
604700 s. -/
theorem C7_cex_blacklist_ttl_full_lifetime :
    step1.1.isSome = true ∧
    step1.2.blacklist = [("j0", 604800)] ∧
    tok0.exp - 100 = 604700 ∧
    (604800 : Nat) ≠ 604700 := by
  decide
